import Mathlib

/-!
Shallow embedding of the typed-connection core of the `netutils` package
(generic `TypedConnection[T]`, its TCP specialisation `TCPTypedConnection[T]`,
and the supporting `ReadOptions` / `Convertable` contracts), together with
theorems settling the frozen claims about it.

Modelling conventions:
- Go byte slices are `List Nat`; machine integers are `Nat` (no overflow is
  reachable at the sizes involved).
- A `net.Conn` is modelled by its observable byte behaviour: `pending` is the
  sequence of bytes the peer has sent and the local side has not yet read;
  `tail` says what a read call observes once `pending` is drained (clean
  end-of-stream, a non-EOF transport error, or blocking forever); `written`
  is the sequence of bytes this side has written to the connection.
- The dynamic type of the wrapped handle (`*net.TCPConn` versus anything
  else) is modelled by the `NetConn` sum, mirroring the runtime type switch
  in `TCPTypedConnection.ReadFrom`.
- Go errors are modelled by the `GoError` tree; `errors.Join` (used here with
  one or two arguments) becomes `GoError.joined1` / `GoError.joined2`,
  preserving which causes are present.
- A nillable Go pointer `*T` is an `Option T` holding the pointee's current
  value; a variadic `opts ...ReadOptions` parameter is an
  `Option (List ReadOptions)`: `none` is the nil slice produced by passing no
  arguments, `some l` is an explicitly supplied (non-nil) slice.
- Operations that can panic (out-of-range index, nil-pointer store) or block
  forever return an `Outcome`.
-/

namespace Netutils

/-- ReadOptions from the source: buffer capacity and chunk size for reads. -/
structure ReadOptions where
  bufferSize : Nat
  chunkSize : Nat
deriving DecidableEq, Repr

/-- defaultReadOptions from the source: `{BufferSize: 4096, ChunkSize: 256}`. -/
def defaultReadOptions : ReadOptions :=
  { bufferSize := 4096, chunkSize := 256 }

/-- ConnectionType from the source (TCP and UDP are the only declared values). -/
inductive ConnectionType where
  | tcp
  | udp
deriving DecidableEq, Repr

/-- ConnectionType.String from the source. -/
def ConnectionType.toStr : ConnectionType → String
  | .tcp => "tcp"
  | .udp => "udp"

/-- Go error values as observable trees: `simple` is `errors.New`/`fmt.Errorf`
output, `eof` is `io.EOF`, `connErr` is any other transport error carried by
the connection. `errors.Join` appears in this code only with one or two
arguments, so those two arities are modelled directly: `joined1 a` is
`errors.Join(a)` and `joined2 a b` is `errors.Join(a, b)`. -/
inductive GoError where
  | simple (msg : String)
  | eof
  | connErr (msg : String)
  | joined1 (e1 : GoError)
  | joined2 (e1 e2 : GoError)
deriving DecidableEq, Repr

/-- An error chain `e` preserves a cause `c` when `e` is `c` itself or `c` is
one of the errors joined into `e` (the chains produced by this code are one
level deep, so direct membership is exact). -/
def GoError.keeps (e c : GoError) : Bool :=
  e == c ||
    match e with
    | .joined1 a => a == c
    | .joined2 a b => a == c || b == c
    | _ => false

/-- What the read side of a connection observes once the peer-sent bytes are
drained: a clean end-of-stream (`io.EOF`), a non-EOF transport error, or no
further events (the read blocks forever). -/
inductive ConnTail where
  | eofT
  | errT (msg : String)
  | blockT
deriving DecidableEq, Repr

/-- Observable state of a raw connection: bytes sent by the peer and not yet
read, the behaviour after they are drained, and bytes written by this side. -/
structure ConnState where
  pending : List Nat
  tail : ConnTail
  written : List Nat
deriving DecidableEq, Repr

/-- The wrapped handle together with its dynamic type, as inspected by the
`switch conn := ttc.conn.(type)` in `TCPTypedConnection.ReadFrom`: either a
concrete `*net.TCPConn` or any other `net.Conn` implementation. -/
inductive NetConn where
  | tcp (s : ConnState)
  | nonTCP (s : ConnState)
deriving DecidableEq, Repr

/-- The observable `ConnState` of a handle, irrespective of its dynamic type
(interface-dispatched `net.Conn` methods see only this). -/
def NetConn.state : NetConn → ConnState
  | .tcp s => s
  | .nonTCP s => s

/-- Replace the observable state, keeping the dynamic type. -/
def NetConn.setState : NetConn → ConnState → NetConn
  | .tcp _, s => .tcp s
  | .nonTCP _, s => .nonTCP s

/-- Convertable from the source: the capability bound on the payload type
(`fmt.Stringer` plus Marshal/Unmarshal). `Unmarshal(v, data)` in Go fills the
receiver in place; here it returns the produced value or the error. The
`typeName` field models the `reflect.TypeOf(data)` rendering of `*T` used in
ReadFrom's unmarshal-failure message. -/
structure Convertable (T : Type) where
  stringOf : T → String
  marshal : T → Except GoError (List Nat)
  unmarshal : List Nat → Except GoError T
  typeName : String

/-- TypedConnection from the source: a raw handle plus its transport tag. -/
structure TypedConnection (T : Type) where
  conn : NetConn
  connectionType : ConnectionType
deriving DecidableEq, Repr

/-- TCPTypedConnection from the source: embeds the generic wrapper. -/
structure TCPTypedConnection (T : Type) where
  toTypedConnection : TypedConnection T
deriving DecidableEq, Repr

/-- Result of a call that can also panic (Go runtime panic, e.g. an
out-of-range index) or block forever on the connection. -/
inductive Outcome (α : Type) where
  | ok (val : α)
  | panics
  | blocks
deriving DecidableEq, Repr

/-- Observable result of Read/ReadFrom: the returned byte count, the returned
error, the destination pointee after the call (`none` for a nil pointer), and
the connection after the call. -/
structure ReadResult (T : Type) where
  n : Nat
  err : Option GoError
  dest : Option T
  connAfter : NetConn
deriving DecidableEq, Repr

/-- Resolution of the variadic `opts ...ReadOptions`, exactly as guarded in
the source: `if opts == nil` takes the defaults, otherwise `opts[0]` is read,
which is out of range (a runtime panic, here `none`) when the supplied slice
is non-nil but empty. -/
def resolveOpts : Option (List ReadOptions) → Option ReadOptions
  | none => some defaultReadOptions
  | some [] => none
  | some (o :: _) => some o

/-- How the chunked read loop in `TypedConnection.Read` exits: an early
return on `io.EOF` carrying the byte count of that final read call, or a
break on a non-EOF error carrying the accumulated buffer (that error itself
is swallowed by the source; the message is kept here only as a record). -/
inductive LoopExit where
  | eofExit (amount : Nat)
  | errExit (buffer : List Nat) (msg : String)
deriving DecidableEq, Repr

/-- One `tc.conn.Read(chunk)` step at a time: while `pending` is non-empty a
call delivers up to `chunkSize` of its bytes with a nil error; once drained,
the call reports the tail event. Fuel bounds the number of iterations so the
function is structurally recursive; `readLoop` below supplies enough fuel
that `none` (blocking) arises exactly when the loop never exits: the tail
blocks, or `chunkSize = 0` makes every read deliver nothing. Mirrors the
`for` loop of `TypedConnection.Read`: on a nil error the received chunk is
appended to the buffer; on `io.EOF` the loop returns that call's byte count;
on any other error it breaks with the buffer accumulated so far. -/
def readLoopFuel : Nat → Nat → List Nat → ConnTail → List Nat → Option LoopExit
  | 0, _, _, _, _ => none
  | fuel + 1, chunkSize, pending, tail, buffer =>
    match pending, tail with
    | [], .eofT => some (.eofExit 0)
    | [], .errT msg => some (.errExit buffer msg)
    | [], .blockT => none
    | p :: ps, t =>
      if chunkSize = 0 then none
      else
        readLoopFuel fuel chunkSize ((p :: ps).drop chunkSize) t
          (buffer ++ (p :: ps).take chunkSize)

/-- The chunked read loop of `TypedConnection.Read` run to completion. Each
iteration with a positive chunk size strictly shrinks `pending`, so
`pending.length + 1` units of fuel always suffice for an exiting loop. -/
def readLoop (chunkSize : Nat) (pending : List Nat) (tail : ConnTail)
    (buffer : List Nat) : Option LoopExit :=
  readLoopFuel (pending.length + 1) chunkSize pending tail buffer

/-- TypedConnection.Read from the source. `data` is the destination pointer
(`none` = nil). Checks the pointer, resolves the variadic options, runs the
chunked loop, then unmarshals the accumulated buffer; on `io.EOF` it returns
early with that call's byte count and the EOF error; on unmarshal failure it
returns zero and a joined error, leaving the destination untouched; on
success it stores the fresh value and returns the buffer length. -/
def TypedConnection.Read {T : Type} (cv : Convertable T) (tc : TypedConnection T)
    (data : Option T) (opts : Option (List ReadOptions)) : Outcome (ReadResult T) :=
  match data with
  | none => .ok ⟨0, some (.simple "data pointer was nil"), none, tc.conn⟩
  | some d =>
    match resolveOpts opts with
    | none => .panics
    | some readOpts =>
      let s := tc.conn.state
      match readLoop readOpts.chunkSize s.pending s.tail [] with
      | none => .blocks
      | some (.eofExit amount) =>
          .ok ⟨amount, some .eof, some d, tc.conn.setState ⟨[], s.tail, s.written⟩⟩
      | some (.errExit buffer _) =>
          match cv.unmarshal buffer with
          | .error cause =>
              .ok ⟨0, some (.joined2 (.simple "unmarshal of data returned an error") cause),
                some d, tc.conn.setState ⟨[], s.tail, s.written⟩⟩
          | .ok newData =>
              .ok ⟨buffer.length, none, some newData,
                tc.conn.setState ⟨[], s.tail, s.written⟩⟩

/-- TypedConnection.Write from the source: marshal, and on failure return
zero with a joined error and an untouched connection; on success write the
bytes to the connection (modelled as always accepted) and return their
count. -/
def TypedConnection.Write {T : Type} (cv : Convertable T) (tc : TypedConnection T)
    (value : T) : Nat × Option GoError × NetConn :=
  match cv.marshal value with
  | .error cause =>
      (0, some (.joined2 (.simple "could not marshal data to write") cause), tc.conn)
  | .ok buffer =>
      let s := tc.conn.state
      (buffer.length, none, tc.conn.setState ⟨s.pending, s.tail, s.written ++ buffer⟩)

/-- TCPTypedConnection.ReadFrom from the source. Resolves the variadic
options, then type-switches on the wrapped handle. For a non-TCP handle it
returns zero bytes and the invalid-connection-type error. For a `*net.TCPConn`
it allocates a zero-filled buffer of `bufferSize` bytes, wraps it in a
`bytes.Reader`, and calls `conn.ReadFrom(reader)` — which, by `io.ReaderFrom`
semantics, copies the reader's content TO the connection (modelled here as
appending the zero buffer to `written`, returning its full length with a nil
error, the write being accepted). The local buffer is never filled from the
connection; `buffer[:amountRead]` is then unmarshalled. On unmarshal failure
the joined error carries only the context message (the source passes a single
argument to `errors.Join`, dropping the cause) and the byte count is still
returned; on success `*data = newData` (a nil `data` panics here). -/
def TCPTypedConnection.ReadFrom {T : Type} (cv : Convertable T)
    (ttc : TCPTypedConnection T) (data : Option T)
    (opts : Option (List ReadOptions)) : Outcome (ReadResult T) :=
  match resolveOpts opts with
  | none => .panics
  | some readOpts =>
    match ttc.toTypedConnection.conn with
    | .nonTCP s =>
        .ok ⟨0, some (.simple "conn is an invalid connection type for this method"),
          data, .nonTCP s⟩
    | .tcp s =>
        let buffer := List.replicate readOpts.bufferSize 0
        let amountRead := buffer.length
        let s1 : ConnState := ⟨s.pending, s.tail, s.written ++ buffer⟩
        let resizedBuffer := buffer.take amountRead
        match cv.unmarshal resizedBuffer with
        | .error _ =>
            .ok ⟨amountRead,
              some (.joined1 (.simple
                ("could not unmarshal incoming buffer into " ++ cv.typeName))),
              data, .tcp s1⟩
        | .ok newData =>
            match data with
            | none => .panics
            | some _ => .ok ⟨amountRead, none, some newData, .tcp s1⟩

/-! Concrete payloads and connections used as test fixtures: a payload type
whose wire format is the raw byte sequence itself (like the spec's
`StringPayload`), plus codecs whose Marshal or Unmarshal fail, and a
connection whose peer has sent the 5-byte payload "hello". -/

/-- The bytes of the 5-byte payload "hello". -/
def helloBytes : List Nat := [104, 101, 108, 108, 111]

/-- A payload whose Marshal/Unmarshal are the identity on the raw bytes
(round-trips perfectly), standing in for the spec's `StringPayload`. -/
def idCodec : Convertable (List Nat) where
  stringOf _ := "payload"
  marshal v := .ok v
  unmarshal bs := .ok bs
  typeName := "*netutils.StringPayload"

/-- The cause returned by the failing Unmarshal below. -/
def unmarshalCause : GoError := .simple "unmarshal boom"

/-- A payload whose Unmarshal always fails with `unmarshalCause`. -/
def badUnmarshalCodec : Convertable (List Nat) where
  stringOf _ := "payload"
  marshal v := .ok v
  unmarshal _ := .error unmarshalCause
  typeName := "*netutils.StringPayload"

/-- The cause returned by the failing Marshal below. -/
def marshalCause : GoError := .simple "marshal boom"

/-- A payload whose Marshal always fails with `marshalCause`. -/
def badMarshalCodec : Convertable (List Nat) where
  stringOf _ := "payload"
  marshal _ := .error marshalCause
  unmarshal bs := .ok bs
  typeName := "*netutils.StringPayload"

/-- A TCP-backed typed connection whose peer has written "hello" and then
closed its end (the receiver observes the 5 bytes and then `io.EOF`). -/
def tcHelloEof : TypedConnection (List Nat) :=
  ⟨.tcp ⟨helloBytes, .eofT, []⟩, .tcp⟩

/-- The same receiver connection, wrapped as a `TCPTypedConnection`. -/
def ttcHelloEof : TCPTypedConnection (List Nat) := ⟨tcHelloEof⟩

/-- A TCP-backed typed connection whose peer has written "hello" and whose
stream then fails with a non-EOF transport error (connection reset). -/
def tcHelloReset : TypedConnection (List Nat) :=
  ⟨.tcp ⟨helloBytes, .errT "connection reset", []⟩, .tcp⟩

/-- Small explicit read options used to keep concrete evaluations small. -/
def smallOpts : ReadOptions := { bufferSize := 8, chunkSize := 4 }

/-! Lemmas about the chunked read loop. -/

/-- With a positive chunk size and enough fuel, a stream that ends in a clean
end-of-stream always makes the loop exit via the `io.EOF` early return, whose
byte count is the final read call's count: `0`, because by the time the EOF
call happens all pending bytes were already delivered by earlier calls. -/
theorem readLoopFuel_eofT (c : Nat) (hc : 0 < c) :
    ∀ fuel pending buffer, pending.length < fuel →
      readLoopFuel fuel c pending .eofT buffer = some (.eofExit 0) := by
  intro fuel
  induction fuel with
  | zero =>
    intro pending buffer h
    exact absurd h (Nat.not_lt_zero _)
  | succ n ih =>
    intro pending buffer h
    match pending with
    | [] => rfl
    | p :: ps =>
      show (if c = 0 then none
        else readLoopFuel n c ((p :: ps).drop c) .eofT (buffer ++ (p :: ps).take c)) = _
      rw [if_neg (Nat.pos_iff_ne_zero.mp hc)]
      apply ih
      rw [List.length_drop]
      simp only [List.length_cons] at h ⊢
      omega

/-- With a positive chunk size and enough fuel, a stream that fails with a
non-EOF transport error makes the loop break with exactly the bytes the peer
had sent appended to the running buffer (every pending byte is delivered by
the successful chunk reads before the error is observed). -/
theorem readLoopFuel_errT (c : Nat) (hc : 0 < c) (m : String) :
    ∀ fuel pending buffer, pending.length < fuel →
      readLoopFuel fuel c pending (.errT m) buffer =
        some (.errExit (buffer ++ pending) m) := by
  intro fuel
  induction fuel with
  | zero =>
    intro pending buffer h
    exact absurd h (Nat.not_lt_zero _)
  | succ n ih =>
    intro pending buffer h
    match pending with
    | [] => simp [readLoopFuel]
    | p :: ps =>
      show (if c = 0 then none
        else readLoopFuel n c ((p :: ps).drop c) (.errT m) (buffer ++ (p :: ps).take c)) = _
      rw [if_neg (Nat.pos_iff_ne_zero.mp hc)]
      rw [ih ((p :: ps).drop c) (buffer ++ (p :: ps).take c) (by
        rw [List.length_drop]
        simp only [List.length_cons] at h ⊢
        omega)]
      rw [List.append_assoc, List.take_append_drop]

/-- The packaged loop on a clean end-of-stream: exits with count 0 and EOF. -/
theorem readLoop_eofT (c : Nat) (hc : 0 < c) (pending buffer : List Nat) :
    readLoop c pending .eofT buffer = some (.eofExit 0) :=
  readLoopFuel_eofT c hc _ pending buffer (Nat.lt_succ_self _)

/-- The packaged loop on a non-EOF transport error: breaks with the full
pending byte sequence accumulated onto the buffer. -/
theorem readLoop_errT (c : Nat) (hc : 0 < c) (m : String) (pending buffer : List Nat) :
    readLoop c pending (.errT m) buffer = some (.errExit (buffer ++ pending) m) :=
  readLoopFuel_errT c hc m _ pending buffer (Nat.lt_succ_self _)

/-! Theorems settling the claims. -/

/-- C1 counterexample: the peer has written the 5-byte payload "hello" and the
stream has reached end-of-stream, yet `Read` returns byte count 0 (not 5) with
the EOF error (not nil), and the destination still holds its prior value `[]`
(not "hello"): on EOF the source returns early, before unmarshalling. -/
theorem C1_eof_roundtrip_counterexample :
    TypedConnection.Read idCodec tcHelloEof (some []) none =
        .ok ⟨0, some .eof, some [], .tcp ⟨[], .eofT, []⟩⟩ ∧
      (0 : Nat) ≠ helloBytes.length ∧
      some GoError.eof ≠ (none : Option GoError) ∧
      some ([] : List Nat) ≠ some helloBytes := by
  exact ⟨by decide, by decide, by decide, by decide⟩

/-- C1 (amended): after the peer writes `v` (placing `Marshal v = bs` on the
wire), a receiver whose stream then reaches clean end-of-stream gets back the
final read call byte count (0) paired with the EOF error and an unmodified
destination, because `Read` returns early on EOF before unmarshalling; the
round-trip value is recovered — `Read` returns the payload byte count with no
error and writes `v` into the destination — only when the chunked loop ends
with a non-EOF transport error instead. -/
theorem C1_roundtrip_amended {T : Type} (cv : Convertable T) (v d : T)
    (bs w : List Nat) (m : String) (peer : TypedConnection T)
    (hm : cv.marshal v = .ok bs) (hu : cv.unmarshal bs = .ok v) :
    TypedConnection.Write cv peer v =
        (bs.length, none,
          peer.conn.setState
            ⟨peer.conn.state.pending, peer.conn.state.tail, peer.conn.state.written ++ bs⟩) ∧
      TypedConnection.Read cv ⟨.tcp ⟨bs, .eofT, w⟩, .tcp⟩ (some d) none =
        .ok ⟨0, some .eof, some d, .tcp ⟨[], .eofT, w⟩⟩ ∧
      TypedConnection.Read cv ⟨.tcp ⟨bs, .errT m, w⟩, .tcp⟩ (some d) none =
        .ok ⟨bs.length, none, some v, .tcp ⟨[], .errT m, w⟩⟩ := by
  refine ⟨by simp [TypedConnection.Write, hm], ?_, ?_⟩
  · simp only [TypedConnection.Read, resolveOpts, NetConn.state, defaultReadOptions]
    rw [readLoop_eofT 256 (by omega) bs []]
    rfl
  · simp only [TypedConnection.Read, resolveOpts, NetConn.state, defaultReadOptions]
    rw [readLoop_errT 256 (by omega) m bs []]
    simp [hu, NetConn.setState]

/-- C1 witness: the amended round-trip statement instantiated with the
identity payload, the "hello" bytes, and concrete connections. -/
theorem C1_roundtrip_amended_witness :
    TypedConnection.Write idCodec tcHelloEof helloBytes =
        (helloBytes.length, none,
          tcHelloEof.conn.setState
            ⟨tcHelloEof.conn.state.pending, tcHelloEof.conn.state.tail,
              tcHelloEof.conn.state.written ++ helloBytes⟩) ∧
      TypedConnection.Read idCodec ⟨.tcp ⟨helloBytes, .eofT, []⟩, .tcp⟩ (some []) none =
        .ok ⟨0, some .eof, some [], .tcp ⟨[], .eofT, []⟩⟩ ∧
      TypedConnection.Read idCodec
          ⟨.tcp ⟨helloBytes, .errT "connection reset", []⟩, .tcp⟩ (some []) none =
        .ok ⟨helloBytes.length, none, some helloBytes,
          .tcp ⟨[], .errT "connection reset", []⟩⟩ :=
  C1_roundtrip_amended idCodec helloBytes [] helloBytes [] "connection reset"
    tcHelloEof rfl rfl

/-- C2 counterexample: 5 bytes ("hello") were accumulated across the chunk
reads before the end-of-stream signal, yet `Read` returns byte count 0 — the
count reported by the final read call — not the accumulated total 5. -/
theorem C2_eof_count_counterexample :
    TypedConnection.Read idCodec tcHelloEof (some [7]) none =
        .ok ⟨0, some .eof, some [7], .tcp ⟨[], .eofT, []⟩⟩ ∧
      helloBytes.length = 5 ∧ (0 : Nat) ≠ 5 := by
  exact ⟨by decide, by decide, by decide⟩

/-- C2 (amended): when the underlying connection signals end-of-stream during
the chunked loop, `Read` returns the byte count reported by the final read
call — zero, since all pending bytes were consumed by earlier chunk reads —
paired with the EOF error; the total accumulated across earlier chunks is not
returned, and the destination is not populated. -/
theorem C2_eof_returns_final_call_count {T : Type} (cv : Convertable T) (d : T)
    (bs w : List Nat) :
    TypedConnection.Read cv ⟨.tcp ⟨bs, .eofT, w⟩, .tcp⟩ (some d) none =
      .ok ⟨0, some .eof, some d, .tcp ⟨[], .eofT, w⟩⟩ := by
  simp only [TypedConnection.Read, resolveOpts, NetConn.state, defaultReadOptions]
  rw [readLoop_eofT 256 (by omega) bs []]
  rfl

/-- C3: evaluating `ReadFrom` on a TCP-backed connection whose peer sent
"hello" shows the inverted transfer: the call reports success with the full
buffer size (8 under the small options), the connection `written` side has
grown by the 8 zero bytes of the freshly allocated buffer (they were sent TO
the peer), the peer bytes are still pending (nothing was received), and the
destination was populated from the zero-filled buffer, not from "hello". -/
theorem C3_readfrom_transfers_wrong_direction :
    TCPTypedConnection.ReadFrom idCodec ttcHelloEof (some []) (some [smallOpts]) =
        .ok ⟨8, none, some (List.replicate 8 0),
          .tcp ⟨helloBytes, .eofT, List.replicate 8 0⟩⟩ ∧
      List.replicate 8 0 ≠ helloBytes := by
  exact ⟨by decide, by decide⟩

/-- C4: the unmarshal-failure wrap in `Read` and the marshal-failure wrap in
`Write` both keep the underlying cause in the joined chain, but the
unmarshal-failure wrap in `ReadFrom` — a one-argument `errors.Join` — drops
it: the returned chain holds only the context message, and the cause is
absent. -/
theorem C4_cause_preservation :
    (TypedConnection.Read badUnmarshalCodec tcHelloReset (some [1]) none =
        .ok ⟨0, some (.joined2 (.simple "unmarshal of data returned an error") unmarshalCause),
          some [1], .tcp ⟨[], .errT "connection reset", []⟩⟩ ∧
      GoError.keeps (.joined2 (.simple "unmarshal of data returned an error") unmarshalCause)
        unmarshalCause = true) ∧
    (TypedConnection.Write badMarshalCodec tcHelloEof [2] =
        (0, some (.joined2 (.simple "could not marshal data to write") marshalCause),
          tcHelloEof.conn) ∧
      GoError.keeps (.joined2 (.simple "could not marshal data to write") marshalCause)
        marshalCause = true) ∧
    (TCPTypedConnection.ReadFrom badUnmarshalCodec ttcHelloEof (some [3]) (some [smallOpts]) =
        .ok ⟨8, some (.joined1 (.simple
            "could not unmarshal incoming buffer into *netutils.StringPayload")),
          some [3], .tcp ⟨helloBytes, .eofT, List.replicate 8 0⟩⟩ ∧
      GoError.keeps (.joined1 (.simple
          "could not unmarshal incoming buffer into *netutils.StringPayload"))
        unmarshalCause = false) := by
  exact ⟨⟨by decide, by decide⟩, ⟨by decide, by decide⟩, ⟨by decide, by decide⟩⟩

/-- C5: `Read` with a nil destination pointer returns zero bytes and the
invalid-argument error, leaves the connection untouched (no read was
performed on it), and produces no output — for every connection, payload
codec, and options argument. -/
theorem C5_nil_destination {T : Type} (cv : Convertable T)
    (tc : TypedConnection T) (opts : Option (List ReadOptions)) :
    TypedConnection.Read cv tc none opts =
      .ok ⟨0, some (.simple "data pointer was nil"), none, tc.conn⟩ := rfl

/-- C6: whenever the bytes accumulated by `Read` fail to unmarshal, the call
returns exactly zero bytes together with the joined "unmarshal of data
returned an error" chain carrying the cause, and the destination still holds
exactly the value it held before the call. -/
theorem C6_unmarshal_failure_frame {T : Type} (cv : Convertable T) (d : T)
    (bs w : List Nat) (m : String) (cause : GoError)
    (opts : Option (List ReadOptions)) (ro : ReadOptions)
    (hop : resolveOpts opts = some ro) (hc : 0 < ro.chunkSize)
    (hu : cv.unmarshal bs = .error cause) :
    TypedConnection.Read cv ⟨.tcp ⟨bs, .errT m, w⟩, .tcp⟩ (some d) opts =
      .ok ⟨0, some (.joined2 (.simple "unmarshal of data returned an error") cause),
        some d, .tcp ⟨[], .errT m, w⟩⟩ := by
  simp only [TypedConnection.Read, hop, NetConn.state]
  rw [readLoop_errT ro.chunkSize hc m bs []]
  simp [hu, NetConn.setState]

/-- C6 witness: the frame property at a concrete connection carrying "hello",
a codec whose Unmarshal always fails, and the default options. -/
theorem C6_unmarshal_failure_frame_witness :
    TypedConnection.Read badUnmarshalCodec
        ⟨.tcp ⟨helloBytes, .errT "connection reset", []⟩, .tcp⟩ (some [9]) none =
      .ok ⟨0, some (.joined2 (.simple "unmarshal of data returned an error") unmarshalCause),
        some [9], .tcp ⟨[], .errT "connection reset", []⟩⟩ :=
  C6_unmarshal_failure_frame badUnmarshalCodec [9] helloBytes [] "connection reset"
    unmarshalCause none defaultReadOptions rfl (by decide) rfl

/-- C7: when Marshal fails, `Write` returns zero bytes together with the
joined "could not marshal data to write" chain carrying the cause and leaves
the connection untouched — nothing is placed on the wire. -/
theorem C7_marshal_failure_writes_nothing {T : Type} (cv : Convertable T)
    (tc : TypedConnection T) (v : T) (cause : GoError)
    (hm : cv.marshal v = .error cause) :
    TypedConnection.Write cv tc v =
      (0, some (.joined2 (.simple "could not marshal data to write") cause), tc.conn) := by
  simp [TypedConnection.Write, hm]

/-- C7 witness: the marshal-failure property at a concrete connection and a
codec whose Marshal always fails. -/
theorem C7_marshal_failure_writes_nothing_witness :
    TypedConnection.Write badMarshalCodec tcHelloEof helloBytes =
      (0, some (.joined2 (.simple "could not marshal data to write") marshalCause),
        tcHelloEof.conn) :=
  C7_marshal_failure_writes_nothing badMarshalCodec tcHelloEof helloBytes marshalCause rfl

/-- C8: `ReadFrom` on a wrapper whose underlying handle is not a concrete
`*net.TCPConn` returns zero bytes and the invalid-connection-type error for
every well-formed options argument, leaving both the connection and the
destination untouched. -/
theorem C8_readfrom_non_stream {T : Type} (cv : Convertable T) (s : ConnState)
    (ct : ConnectionType) (data : Option T) (opts : Option (List ReadOptions))
    (ro : ReadOptions) (hop : resolveOpts opts = some ro) :
    TCPTypedConnection.ReadFrom cv ⟨⟨.nonTCP s, ct⟩⟩ data opts =
      .ok ⟨0, some (.simple "conn is an invalid connection type for this method"),
        data, .nonTCP s⟩ := by
  simp only [TCPTypedConnection.ReadFrom, hop]

/-- C8 witness: the unsupported-kind property at a concrete datagram-backed
wrapper with no options supplied. -/
theorem C8_readfrom_non_stream_witness :
    TCPTypedConnection.ReadFrom idCodec ⟨⟨.nonTCP ⟨helloBytes, .eofT, []⟩, .udp⟩⟩
        (some []) none =
      .ok ⟨0, some (.simple "conn is an invalid connection type for this method"),
        some [], .nonTCP ⟨helloBytes, .eofT, []⟩⟩ :=
  C8_readfrom_non_stream idCodec ⟨helloBytes, .eofT, []⟩ .udp (some []) none
    defaultReadOptions rfl

/-- C9: for every connection, destination, and codec, `Read` and `ReadFrom`
with no options supplied are identical to the same call with the explicit
options `{BufferSize: 4096, ChunkSize: 256}` (which are exactly the
defaults), and a call with several option sets is identical to a call with
only the first. -/
theorem C9_default_options {T : Type} (cv : Convertable T)
    (tc : TypedConnection T) (ttc : TCPTypedConnection T) (data : Option T)
    (o : ReadOptions) (rest : List ReadOptions) :
    defaultReadOptions = { bufferSize := 4096, chunkSize := 256 } ∧
      TypedConnection.Read cv tc data none =
        TypedConnection.Read cv tc data (some [{ bufferSize := 4096, chunkSize := 256 }]) ∧
      TypedConnection.Read cv tc data (some (o :: rest)) =
        TypedConnection.Read cv tc data (some [o]) ∧
      TCPTypedConnection.ReadFrom cv ttc data none =
        TCPTypedConnection.ReadFrom cv ttc data
          (some [{ bufferSize := 4096, chunkSize := 256 }]) ∧
      TCPTypedConnection.ReadFrom cv ttc data (some (o :: rest)) =
        TCPTypedConnection.ReadFrom cv ttc data (some [o]) :=
  ⟨rfl, rfl, rfl, rfl, rfl⟩

/-- C10: the variadic guard compares the options slice against nil, not its
length: a call with an explicitly supplied empty (non-nil) slice reaches the
out-of-range `opts[0]` access and panics, in both `Read` (with a non-nil
destination) and `ReadFrom`, while resolution is in bounds exactly when the
slice is nil (defaults) or non-empty (first element). -/
theorem C10_empty_options_slice {T : Type} (cv : Convertable T)
    (tc : TypedConnection T) (ttc : TCPTypedConnection T) (d : T)
    (data : Option T) (o : ReadOptions) (l : List ReadOptions) :
    TypedConnection.Read cv tc (some d) (some []) = .panics ∧
      TCPTypedConnection.ReadFrom cv ttc data (some []) = .panics ∧
      resolveOpts none = some defaultReadOptions ∧
      resolveOpts (some (o :: l)) = some o :=
  ⟨rfl, rfl, rfl, rfl⟩

end Netutils
